import Mathlib

/-!
Verification development for the talk-2-me PDF-to-audio pipeline.

The Python sources under `src/` are shallowly embedded: pure fragments become
Lean functions, raised exceptions become `Except` errors, network calls become
explicit function parameters, and mutable session state becomes explicit state
records.  Each embedded definition is named after (and translated from) the
source symbol it models.
-/

namespace TalkToMe

/-- Exception classes of `src/core/exceptions.py` (the `PDFAudioError`
hierarchy).  Each carries the class it was raised as, since the hierarchy only
distinguishes classes, a message, and the `original_error` field of
`PDFAudioError.__init__` (default `None`). -/
inductive AppErrClass where
  | pdfAudioError
  | pdfProcessingError
  | textExtractionError
  | llmErrorApp
  | llmAPIErrorApp
  | llmProcessingError
  | ttsErrorApp
  | ttsAPIErrorApp
  | audioGenerationError
  | validationError
deriving DecidableEq

/-- Model of the Python exceptions raised by the embedded code paths:
builtin `KeyError` / `ValueError` / `IndexError`, the local `LLMError` /
`LLMAPIError` of `src/core/llm/service.py`, the local `TTSError` / `TTSAPIError`
of `src/core/tts/service.py` (plain `Exception` subclasses without a cause
field), and the `PDFAudioError` hierarchy of `src/core/exceptions.py` whose
constructor stores an optional `original_error`. -/
inductive PyErr where
  | keyError (key : String)
  | valueError (msg : String)
  | indexError (msg : String)
  | llmError (msg : String)
  | llmAPIError (msg : String)
  | ttsError (msg : String)
  | ttsAPIError (msg : String)
  | appError (cls : AppErrClass) (msg : String) (original_error : Option PyErr)

/-- Python `str(e)`: the message of the exception; for `KeyError` the `str` of
the exception is the `repr` of the missing key, modelled here as the key
wrapped in single quotes (control characters are kept verbatim rather than
re-escaped). -/
def pyStrErr : PyErr → String
  | .keyError k => "\x27" ++ k ++ "\x27"
  | .valueError m => m
  | .indexError m => m
  | .llmError m => m
  | .llmAPIError m => m
  | .ttsError m => m
  | .ttsAPIError m => m
  | .appError _ m _ => m

/-- Keyword-argument lookup, modelling `kwargs[name]` for the `**kwargs`
dictionary (keys are unique in a Python call, so first match suffices). -/
def lookupKw (kw : List (String × String)) (k : String) : Option String :=
  match kw with
  | [] => none
  | (a, b) :: t => if a = k then some b else lookupKw t k

/-- Splits a field name at the first `.` or `[`: CPython resolves the part
before it (the first component) against the arguments and then applies
attribute/index access to the found object; a bare `]` is an ordinary name
character. -/
def splitFieldName : List Char → List Char × List Char
  | [] => ([], [])
  | c :: rest =>
    if c = '.' ∨ c = '[' then ([], c :: rest)
    else ((splitFieldName rest).1.cons c, (splitFieldName rest).2)

/-- Resolution of one replacement field of `str.format`, given the reversed
field-name characters and an optional format spec.  Mirrors CPython order: the
first name component (before any `.`/`[`) is extracted; if it is empty or all
digits the field is positional auto-numbering (always `IndexError` here since
the code only ever passes keyword arguments); otherwise the first component is
looked up (`KeyError` naming it when absent — so `\x7ba.b\x7d` and
`\x7ba[0]\x7d` with `a` unbound both name `a`, as CPython does); then the
accessor and the format spec are applied.  Only the constructs the repository
exercises are modelled beyond that point: attribute/index access on a value
that was found, conversions (`!r` etc.) and non-empty format specs on a found
value are outside the model and mapped to `ValueError`. -/
def resolveField (kw : List (String × String)) (nameRev : List Char)
    (spec : Option (List Char)) : Except PyErr (List Char) :=
  if (splitFieldName nameRev.reverse).1 = [] then
    .error (.indexError "Replacement index 0 out of range for positional args tuple")
  else if (splitFieldName nameRev.reverse).1.all Char.isDigit then
    .error (.indexError "Replacement index out of range for positional args tuple")
  else
    match lookupKw kw (String.mk (splitFieldName nameRev.reverse).1) with
    | none => .error (.keyError (String.mk (splitFieldName nameRev.reverse).1))
    | some v =>
      match (splitFieldName nameRev.reverse).2 with
      | _ :: _ =>
        .error (.valueError "attribute or index access on a found value is outside this model")
      | [] =>
        match spec with
        | none => .ok v.data
        | some [] => .ok v.data
        | some (_ :: _) =>
          .error (.valueError "format specifiers on string values are outside this model")

/-- Scanner state of the `str.format` model: plain text, inside a replacement
field name (reversed accumulator), or inside a format spec (with the brace
nesting depth CPython uses to find the end of the field). -/
inductive FmtMode where
  | text
  | closeBr
  | field (accRev : List Char)
  | spec (nameRev : List Char) (accRev : List Char) (depth : Nat)

/-- Single left-to-right pass of CPython `str.format` over the template
characters, restricted to keyword arguments: `\x7b\x7b` and `\x7d\x7d` are
literal braces, `\x7b name \x7d` is a replacement field resolved as soon as its
closing brace is reached (so an early `KeyError` fires before later text is
scanned, as in CPython), a stray brace is a `ValueError`, and a `:` switches to
format-spec scanning with brace counting.  CPython additionally suspends the
`:`/`\x7d` terminators inside `[...]` index brackets of a field name; that
bracket scanning is not implemented (`[` is an ordinary name character here),
which only matters for names using index access — excluded from `Seg.wf` and
absent from the repository templates. -/
def pyFormatCore (kw : List (String × String)) :
    FmtMode → List Char → List Char → Except PyErr (List Char)
  | .text, outRev, [] => .ok outRev.reverse
  | .text, outRev, c :: cs =>
    if c = '{' then pyFormatCore kw (.field []) outRev cs
    else if c = '}' then pyFormatCore kw .closeBr outRev cs
    else pyFormatCore kw .text (c :: outRev) cs
  | .closeBr, _, [] => .error (.valueError "Single close brace encountered in format string")
  | .closeBr, outRev, c :: cs =>
    if c = '}' then pyFormatCore kw .text ('}' :: outRev) cs
    else .error (.valueError "Single close brace encountered in format string")
  | .field accRev, _, [] =>
    if accRev = [] then .error (.valueError "Single open brace encountered in format string")
    else .error (.valueError "expected close brace before end of string")
  | .field accRev, outRev, c :: cs =>
    if c = '}' then
      match resolveField kw accRev none with
      | .error e => .error e
      | .ok v => pyFormatCore kw .text (v.reverseAux outRev) cs
    else if c = '{' then
      if accRev = [] then pyFormatCore kw .text ('{' :: outRev) cs
      else .error (.valueError "unexpected open brace in field name")
    else if c = ':' then pyFormatCore kw (.spec accRev [] 1) outRev cs
    else if c = '!' then .error (.valueError "conversion specifiers are outside this model")
    else pyFormatCore kw (.field (c :: accRev)) outRev cs
  | .spec _ _ _, _, [] => .error (.valueError "unmatched open brace in format spec")
  | .spec nameRev accRev depth, outRev, c :: cs =>
    if c = '}' then
      if depth ≤ 1 then
        match resolveField kw nameRev (some accRev.reverse) with
        | .error e => .error e
        | .ok v => pyFormatCore kw .text (v.reverseAux outRev) cs
      else pyFormatCore kw (.spec nameRev ('}' :: accRev) (depth - 1)) outRev cs
    else if c = '{' then pyFormatCore kw (.spec nameRev ('{' :: accRev) (depth + 1)) outRev cs
    else pyFormatCore kw (.spec nameRev (c :: accRev) depth) outRev cs

/-- `template.format(**kwargs)` for a Python `str` template with keyword
arguments, as used by `PromptTemplate.format` in prompts.py. -/
def pyStrFormat (template : String) (kw : List (String × String)) : Except PyErr String :=
  (pyFormatCore kw .text [] template.data).map String.mk

/-- The `PromptTemplate` dataclass of prompts.py (the unused `examples` field,
default `None`, is omitted; `parameters` is the documentation mapping from
parameter name to purpose). -/
structure PromptTemplate where
  template : String
  description : String
  parameters : List (String × String)
deriving DecidableEq

/-- `PromptTemplate.format` of prompts.py: delegates to `str.format` and
re-raises a `KeyError` as `ValueError("Missing required parameter: ...")`
carrying the `repr` of the missing key; every other exception propagates
unchanged. -/
def PromptTemplate.format (t : PromptTemplate) (kwargs : List (String × String)) :
    Except PyErr String :=
  match pyStrFormat t.template kwargs with
  | .ok s => .ok s
  | .error (.keyError k) =>
    .error (.valueError ("Missing required parameter: \x27" ++ k ++ "\x27"))
  | .error e => .error e

/-- The `PromptType` enum of src/core/llm/prompts.py (12 members), used as the
key type of the `PromptLibrary` registry. -/
inductive PromptsPT where
  | TEXT_EXTRACTION
  | RESEARCH_SUMMARY
  | METHODOLOGY_ANALYSIS
  | LITERATURE_REVIEW
  | KEY_FINDINGS
  | CRITICAL_ANALYSIS
  | FUTURE_RESEARCH
  | QUICK_REVIEW
  | BIBLIOGRAPHY
  | CHAPTER_BREAKDOWN
  | STUDY_GUIDE
  | APA_CITATION
deriving DecidableEq

/-- The distinct `PromptType` enum of src/core/llm/prompt_types.py (9 members),
the one imported by `src/services/pdf_service.py` and `src/ui/app.py`. -/
inductive PromptTypesPT where
  | TEXT_EXTRACTION
  | RESEARCH_SUMMARY
  | METHODOLOGY_ANALYSIS
  | LITERATURE_REVIEW
  | KEY_FINDINGS
  | CRITICAL_ANALYSIS
  | FUTURE_RESEARCH
  | QUICK_REVIEW
  | BIBLIOGRAPHY
deriving DecidableEq

/-- A value that can be passed as `prompt_type` to `PromptLibrary.get_template`:
a member of either enum class.  Python `Enum` members of different classes are
never equal (identity-based equality), which the derived `DecidableEq` mirrors:
`core x = svc y` is always false. -/
inductive PyPromptKey where
  | core (pt : PromptsPT)
  | svc (pt : PromptTypesPT)
deriving DecidableEq


/-- The `PromptType.TEXT_EXTRACTION` entry of `PromptLibrary.__init__` in prompts.py
(template body after the source's `.strip()`). -/
def textExtractionTemplate : PromptTemplate :=
  { template := "Extract and structure the text content from this document.\n                Preserve the logical flow and hierarchy of information.\n                Maintain section headers, lists, and important formatting.\n                Remove any non-essential formatting or artifacts.\n                Ensure the output is clean, readable text suitable for further analysis.\n\n                Focus on:\n                - Main content and arguments\n                - Section structure and flow\n                - Lists and enumerations\n                - Tables and figures (describe their content)\n                - Citations and references\n                \n                Document to process:\n                \x7bcontent\x7d",
    description := "Extracts clean, structured text from documents",
    parameters := [("content", "The document to process")] }

/-- The `PromptType.RESEARCH_SUMMARY` entry of `PromptLibrary.__init__` in prompts.py
(template body after the source's `.strip()`). -/
def researchSummaryTemplate : PromptTemplate :=
  { template := "Create a comprehensive research summary following this structure:\n                1. Core Research Question/Hypothesis\n                   - What is the main research question?\n                   - What are the hypotheses being tested?\n\n                2. Key Theoretical Framework\n                   - What theories are being used/tested?\n                   - How does this fit into the broader field?\n\n                3. Methodology Highlights\n                   - Key methodological approaches\n                   - Sample size and characteristics\n                   - Notable analytical techniques\n\n                4. Principal Findings\n                   - Major results and their significance\n                   - Statistical relevance if applicable\n                   - Key tables/figures and their implications\n\n                5. Critical Implications\n                   - Theoretical contributions\n                   - Practical applications\n                   - Limitations and future research\n\n                6. Relevance to Your Field\n                   - How this connects to \x7bresearch_area\x7d\n                   - Potential applications to your work\n\n                Format the output in clear, concise sections that are easy to follow when converted to audio.\n                Focus on aspects most relevant to \x7bresearch_area\x7d.\n                \n                Document to analyze:\n                \x7bcontent\x7d",
    description := "Creates a structured research summary with field-specific focus",
    parameters := [("content", "The paper to analyze"), ("research_area", "Your specific research area/focus")] }

/-- The `PromptType.KEY_FINDINGS` entry of `PromptLibrary.__init__` in prompts.py
(template body after the source's `.strip()`). -/
def keyFindingsTemplate : PromptTemplate :=
  { template := "Extract and analyze the key findings from this research:\n\n                1. Primary Results\n                   - Main discoveries and insights\n                   - Statistical significance\n                   - Effect sizes and magnitudes\n                   - Unexpected findings\n\n                2. Supporting Evidence\n                   - Data and measurements\n                   - Validation methods\n                   - Replication results\n                   - Control comparisons\n\n                3. Practical Significance\n                   - Real-world implications\n                   - Application potential\n                   - Industry relevance\n                   - Policy impacts\n\n                4. Theoretical Contributions\n                   - New concepts introduced\n                   - Theoretical validations\n                   - Challenges to existing theory\n                   - Framework extensions\n\n                5. Methodological Innovations\n                   - Novel approaches\n                   - Technical advances\n                   - Measurement improvements\n                   - Analysis innovations\n\n                6. Relevance to \x7bresearch_area\x7d\n                   - Direct applications\n                   - Adaptation potential\n                   - Integration opportunities\n\n                Prioritize findings that are statistically significant, novel, and impactful.\n                \n                Document to analyze:\n                \x7bcontent\x7d",
    description := "Extracts and analyzes key research findings",
    parameters := [("content", "The paper to analyze"), ("research_area", "Your specific research area")] }

/-- The `PromptType.CRITICAL_ANALYSIS` entry of `PromptLibrary.__init__` in prompts.py
(template body after the source's `.strip()`). -/
def criticalAnalysisTemplate : PromptTemplate :=
  { template := "Provide a critical analysis of this research:\n\n                1. Theoretical Framework\n                   - Appropriateness of theories used\n                   - Completeness of framework\n                   - Alternative theoretical perspectives\n                   - Integration with existing literature\n\n                2. Methodology Assessment\n                   - Research design strengths/weaknesses\n                   - Sample selection and size\n                   - Control of variables\n                   - Measurement validity and reliability\n\n                3. Analysis Rigor\n                   - Statistical approach appropriateness\n                   - Data handling procedures\n                   - Assumption validation\n                   - Alternative explanations considered\n\n                4. Results Interpretation\n                   - Strength of conclusions\n                   - Causality claims\n                   - Generalizability\n                   - Practical significance\n\n                5. Limitations Analysis\n                   - Design constraints\n                   - Implementation challenges\n                   - Generalizability limits\n                   - Resource constraints\n\n                6. Impact Assessment\n                   - Contribution to \x7bresearch_area\x7d\n                   - Practical applications\n                   - Policy implications\n                   - Future research value\n\n                Be constructively critical while acknowledging strengths.\n                \n                Document to analyze:\n                \x7bcontent\x7d",
    description := "Provides critical analysis of research strengths and weaknesses",
    parameters := [("content", "The paper to analyze"), ("research_area", "Your specific research area")] }

/-- The `PromptType.METHODOLOGY_ANALYSIS` entry of `PromptLibrary.__init__` in prompts.py
(template body after the source's `.strip()`). -/
def methodologyAnalysisTemplate : PromptTemplate :=
  { template := "Provide a detailed analysis of the research methodology:\n\n                1. Research Design\n                   - Type of study(experimental, observational, etc.)\n                   - Key variables and their operationalization\n                   - Control measures and potential confounds\n\n                2. Data Collection\n                   - Methods used\n                   - Sample characteristics\n                   - Timeline and procedures\n                   - Notable instruments or tools\n\n                3. Analysis Techniques\n                   - Statistical methods employed\n                   - Software or tools used\n                   - Robustness checks\n                   - Validity considerations\n\n                4. Methodological Strengths\n                   - What was done particularly well?\n                   - Novel approaches or innovations\n\n                5. Limitations and Considerations\n                   - Potential methodological weaknesses\n                   - Areas for improvement\n                   - What to consider when replicating\n\n                6. Application to Your Research\n                   - How could you adapt this methodology?\n                   - Potential improvements for your context\n                   - Resource requirements\n\n                Focus on practical details that would be useful for replication or adaptation.\n\n                Document to analyze:\n                \x7bcontent\x7d",
    description := "Detailed analysis of research methodology for potential replication",
    parameters := [("content", "The methodology to analyze")] }

/-- The `PromptType.QUICK_REVIEW` entry of `PromptLibrary.__init__` in prompts.py
(template body after the source's `.strip()`). -/
def quickReviewTemplate : PromptTemplate :=
  { template := "You are an expert scientific researcher who has years of experience in conducting systematic literature surveys and meta-analyses of different topics. You pride yourself on incredible accuracy and attention to detail. You always stick to the facts in the sources provided, and never make up new facts.\n\n                Now look at the research paper below, and answer the following questions in 1-2 sentences.\n\n                When was the paper published?\n\n                What is the sample size?\n\n                What is the study methodology? in particular, is it a randomized control trial?\n\n                How was the study funded? in particular, was the funding from commercial funders?\n\n                What was the key question being studied?\n\n                What were the key findings to the key question being studied?\n\n                Paper to analyze:\n                \x7bcontent\x7d",
    description := "Provides quick, focused analysis of key aspects of a research paper",
    parameters := [("content", "The paper to analyze")] }

/-- The `PromptType.LITERATURE_REVIEW` entry of `PromptLibrary.__init__` in prompts.py
(template body after the source's `.strip()`). -/
def literatureReviewTemplate : PromptTemplate :=
  { template := "Create a literature review analysis focusing on how this paper fits into the broader research landscape:\n\n                1. Research Stream Identification\n                   - Which research stream(s) does this belong to?\n                   - Key theoretical frameworks used\n\n                2. Historical Context\n                   - How this builds on previous work\n                   - Major works cited and their relevance\n                   - Evolution of the research question\n\n                3. Current Debates\n                   - Controversial or contested areas\n                   - Different schools of thought\n                   - Where this paper stands\n\n                4. Research Gaps\n                   - What gaps does this address?\n                   - What remains unexplored?\n                   - Potential future directions\n\n                5. Connection Map\n                   - Links to other key papers in \x7bresearch_area\x7d\n                   - Theoretical or methodological connections\n                   - Potential synthesis opportunities\n\n                6. Integration Points\n                   - How to integrate with your research\n                   - Potential citation purposes\n                   - Critical discussion points\n\n                Focus on building a mental map of how this fits into your research narrative.\n\n                Document to analyze:\n                \x7bcontent\x7d",
    description := "Analyzes paper\x27s place in literature and research landscape",
    parameters := [("content", "The paper to analyze"), ("research_area", "Your specific research area")] }

/-- The `PromptType.BIBLIOGRAPHY` entry of `PromptLibrary.__init__` in prompts.py
(template body after the source's `.strip()`). -/
def bibliographyTemplate : PromptTemplate :=
  { template := "Extract and analyze the bibliography in strict JSON format:\n\n                \x7b\n                    \"references\": [\n                        \x7b\n                            \"citation\": \"Full citation text\",\n                            \"authors\": [\"Author 1\", \"Author 2\"],\n                            \"year\": 2024,\n                            \"title\": \"Paper title\",\n                            \"journal\": \"Journal name\",\n                            \"doi\": \"DOI if available\",\n                            \"type\": \"empirical|theoretical|review\",\n                            \"relevance\": \"Relevance to \x7bresearch_area\x7d\",\n                            \"themes\": [\"theme1\", \"theme2\"],\n                            \"is_seminal\": true|false,\n                            \"citation_count\": \"if available\",\n                            \"is_recent\": true|false\n                        \x7d\n                    ],\n                    \"analysis\": \x7b\n                        \"most_cited\": [\"ref1\", \"ref2\"],\n                        \"seminal_works\": [\"ref1\", \"ref2\"],\n                        \"recent_papers\": [\"ref1\", \"ref2\"],\n                        \"key_journals\": [\"journal1\", \"journal2\"],\n                        \"main_themes\": [\"theme1\", \"theme2\"]\n                    \x7d\n                \x7d\n\n                Rules:\n                1. Extract ALL references from the document\n                2. Format exactly as shown above\n                3. Ensure valid JSON structure\n                4. Mark papers from last 2 years as recent\n                5. Identify seminal papers based on citation patterns\n                6. Group by research themes\n                7. Note relevance to \x7bresearch_area\x7d\n\n                Document to analyze:\n                \x7bcontent\x7d",
    description := "Extracts and analyzes bibliography in structured JSON format",
    parameters := [("content", "The paper to analyze"), ("research_area", "Your specific research area")] }

/-- The `PromptType.FUTURE_RESEARCH` entry of `PromptLibrary.__init__` in prompts.py
(template body after the source's `.strip()`). -/
def futureResearchTemplate : PromptTemplate :=
  { template := "Identify and analyze future research directions based on this paper:\n\n                1. Direct Extensions\n                   - Immediate next steps suggested by authors\n                   - Natural extensions of current findings\n                   - Methodological improvements\n\n                2. Research Gaps\n                   - Unexplored aspects of the topic\n                   - Limitations that need addressing\n                   - Missing variables or contexts\n\n                3. Emerging Opportunities\n                   - New technologies or methods that could be applied\n                   - Interdisciplinary connections\n                   - Potential paradigm shifts\n\n                4. Practical Applications\n                   - Industry or field applications to explore\n                   - Policy implications to investigate\n                   - Implementation studies needed\n\n                5. Your Research Context\n                   - Specific opportunities in \x7bresearch_area\x7d\n                   - How to build on this work\n                   - Potential collaboration points\n\n                6. Resource Considerations\n                   - Required skills or expertise\n                   - Potential funding sources\n                   - Timeline and scope estimates\n\n                Focus on actionable research directions that align with current trends and needs.\n\n                Document to analyze:\n                \x7bcontent\x7d",
    description := "Identifies future research directions and opportunities",
    parameters := [("content", "The paper to analyze"), ("research_area", "Your specific research area")] }

/-- The `PromptType.CHAPTER_BREAKDOWN` entry of `PromptLibrary.__init__` in prompts.py
(template body after the source's `.strip()`). -/
def chapterBreakdownTemplate : PromptTemplate :=
  { template := "Analyze this document and create a logical chapter breakdown:\n\n                1. Document Structure Analysis\n                   - Identify major sections and subsections\n                   - Detect natural topic transitions\n                   - Recognize hierarchical structure\n\n                2. Chapter Identification\n                   - Create logical chapter divisions\n                   - Maintain content coherence\n                   - Preserve academic flow\n\n                3. For each chapter/section:\n                   - Title/heading\n                   - Main topics covered\n                   - Key concepts introduced\n                   - Important figures/tables\n                   - Word count and density\n                   - Logical connections to other chapters\n\n                4. Navigation Markers\n                   - Clear start/end points\n                   - Transition phrases\n                   - Cross-references\n\n                Format the output as a structured JSON:\n                \x7b\x7b\n                    \"chapters\": [\n                        \x7b\x7b\n                            \"title\": \"Chapter title\",\n                            \"start_marker\": \"Text that starts this chapter\",\n                            \"end_marker\": \"Text that ends this chapter\",\n                            \"topics\": [\"topic1\", \"topic2\"],\n                            \"key_concepts\": [\"concept1\", \"concept2\"],\n                            \"word_count\": 1234,\n                            \"references\": [\"ref1\", \"ref2\"]\n                        \x7d\x7d\n                    ]\n                \x7d\x7d\n\n                Document to analyze:\n                \x7bcontent\x7d",
    description := "Creates logical chapter breakdown with navigation markers",
    parameters := [("content", "The document to analyze")] }

/-- The `PromptType.STUDY_GUIDE` entry of `PromptLibrary.__init__` in prompts.py
(template body after the source's `.strip()`). -/
def studyGuideTemplate : PromptTemplate :=
  { template := "Create a comprehensive study guide for this document:\n\n                1. Learning Objectives\n                   - Core concepts to master\n                   - Key skills to develop\n                   - Understanding checkpoints\n\n                2. Key Concepts\n                   - Define main terms\n                   - Explain core theories\n                   - Illustrate key relationships\n                   - Highlight critical formulas/methods\n\n                3. Summary Points\n                   - Chapter/section summaries\n                   - Main arguments/findings\n                   - Important evidence\n                   - Methodology highlights\n\n                4. Practice Questions\n                   - Conceptual understanding questions\n                   - Application scenarios\n                   - Critical thinking exercises\n                   - Self-assessment prompts\n\n                5. Study Resources\n                   - Related readings\n                   - Additional references\n                   - Online resources\n                   - Practice materials\n\n                Format as a structured guide optimized for learning.\n                Include both theoretical understanding and practical application.\n\n                Document to analyze:\n                \x7bcontent\x7d",
    description := "Generates comprehensive study guide with practice materials",
    parameters := [("content", "The document to analyze")] }

/-- The `PromptType.APA_CITATION` entry of `PromptLibrary.__init__` in prompts.py
(template body after the source's `.strip()`). -/
def apaCitationTemplate : PromptTemplate :=
  { template := "Generate an APA citation in structured JSON format for the given content.\n                The output should strictly follow this JSON schema:\n                \x7b\n                  \"annotatedBibliography\": [\n                    \x7b\n                      \"author\": \"Last names and initials (e.g., \x27Smith, J. D. & Doe, A. B.\x27)\",\n                      \"year\": \"Publication year\",\n                      \"title\": \"Full title of the work\",\n                      \"publisher\": \"Publisher name or journal title\",\n                      \"doi_url\": \"DOI URL if available\",\n                      \"publication_type\": \"Type (e.g., journal article, book, etc.)\",\n                      \"volume\": \"Volume number if applicable\",\n                      \"issue\": \"Issue number if applicable\",\n                      \"pages\": \"Page range if applicable\"\n                    \x7d\n                  ]\n                \x7d\n\n                Ensure:\n                - All author names are properly formatted with last name, first initial\n                - Multiple authors are connected with \x27&\x27\n                - Title is in sentence case\n                - All required fields are filled based on the source type\n                - JSON is properly formatted and valid\n                - Include DOI URL if available\n\n                - If any content is missing or not clear, return an empty JSON object\n\n                Content to cite:\n                \x7bcontent\x7d",
    description := "Generates structured JSON format APA citations",
    parameters := [("content", "The source content to create a citation for")] }

/-- The `_templates` dictionary built by `PromptLibrary.__init__`, in insertion
order; keys are members of the prompts.py `PromptType` enum. -/
def promptLibraryTemplates : List (PyPromptKey × PromptTemplate) :=
  [(PyPromptKey.core .TEXT_EXTRACTION, textExtractionTemplate),
   (PyPromptKey.core .RESEARCH_SUMMARY, researchSummaryTemplate),
   (PyPromptKey.core .KEY_FINDINGS, keyFindingsTemplate),
   (PyPromptKey.core .CRITICAL_ANALYSIS, criticalAnalysisTemplate),
   (PyPromptKey.core .METHODOLOGY_ANALYSIS, methodologyAnalysisTemplate),
   (PyPromptKey.core .QUICK_REVIEW, quickReviewTemplate),
   (PyPromptKey.core .LITERATURE_REVIEW, literatureReviewTemplate),
   (PyPromptKey.core .BIBLIOGRAPHY, bibliographyTemplate),
   (PyPromptKey.core .FUTURE_RESEARCH, futureResearchTemplate),
   (PyPromptKey.core .CHAPTER_BREAKDOWN, chapterBreakdownTemplate),
   (PyPromptKey.core .STUDY_GUIDE, studyGuideTemplate),
   (PyPromptKey.core .APA_CITATION, apaCitationTemplate)]

/-- Python `str()` of a member of the prompt_types.py enum, as interpolated
into the `Unknown prompt type` message. -/
def pyStrSvcPT : PromptTypesPT → String
  | .TEXT_EXTRACTION => "PromptType.TEXT_EXTRACTION"
  | .RESEARCH_SUMMARY => "PromptType.RESEARCH_SUMMARY"
  | .METHODOLOGY_ANALYSIS => "PromptType.METHODOLOGY_ANALYSIS"
  | .LITERATURE_REVIEW => "PromptType.LITERATURE_REVIEW"
  | .KEY_FINDINGS => "PromptType.KEY_FINDINGS"
  | .CRITICAL_ANALYSIS => "PromptType.CRITICAL_ANALYSIS"
  | .FUTURE_RESEARCH => "PromptType.FUTURE_RESEARCH"
  | .QUICK_REVIEW => "PromptType.QUICK_REVIEW"
  | .BIBLIOGRAPHY => "PromptType.BIBLIOGRAPHY"

/-- Python `str()` of a member of the prompts.py enum. -/
def pyStrCorePT : PromptsPT → String
  | .TEXT_EXTRACTION => "PromptType.TEXT_EXTRACTION"
  | .RESEARCH_SUMMARY => "PromptType.RESEARCH_SUMMARY"
  | .METHODOLOGY_ANALYSIS => "PromptType.METHODOLOGY_ANALYSIS"
  | .LITERATURE_REVIEW => "PromptType.LITERATURE_REVIEW"
  | .KEY_FINDINGS => "PromptType.KEY_FINDINGS"
  | .CRITICAL_ANALYSIS => "PromptType.CRITICAL_ANALYSIS"
  | .FUTURE_RESEARCH => "PromptType.FUTURE_RESEARCH"
  | .QUICK_REVIEW => "PromptType.QUICK_REVIEW"
  | .BIBLIOGRAPHY => "PromptType.BIBLIOGRAPHY"
  | .CHAPTER_BREAKDOWN => "PromptType.CHAPTER_BREAKDOWN"
  | .STUDY_GUIDE => "PromptType.STUDY_GUIDE"
  | .APA_CITATION => "PromptType.APA_CITATION"

/-- Python `str()` of either kind of key. -/
def pyStrPromptKey : PyPromptKey → String
  | .core pt => pyStrCorePT pt
  | .svc pt => pyStrSvcPT pt

/-- Dictionary membership / lookup on the `_templates` mapping, using the
enum equality modelled by `PyPromptKey`. -/
def lookupTemplate : List (PyPromptKey × PromptTemplate) → PyPromptKey → Option PromptTemplate
  | [], _ => none
  | (k, t) :: rest, key => if k = key then some t else lookupTemplate rest key

/-- `PromptLibrary.get_template` of prompts.py: raises
`ValueError(f"Unknown prompt type: ...")` when the argument is not a key of
`_templates`, otherwise returns the stored template. -/
def PromptLibrary.get_template (k : PyPromptKey) : Except PyErr PromptTemplate :=
  match lookupTemplate promptLibraryTemplates k with
  | none => .error (.valueError ("Unknown prompt type: " ++ pyStrPromptKey k))
  | some t => .ok t



/-- Character that a format scanner treats as plain text (neither brace). -/
def isPlainChar (c : Char) : Bool := c != '{' && c != '}'

/-- Character allowed inside a simple replacement-field name: anything that
neither ends or diverts the field scan nor starts the attribute/index access
(`.` / `[`) that CPython resolves against the first name component. -/
def isNameChar (c : Char) : Bool :=
  c != '{' && c != '}' && c != ':' && c != '!' && c != '.' && c != '['

/-- Spec-level shape of one piece of a well-formed format string: a literal
run without braces, a doubled-brace escape, or a simple named placeholder
`\x7b name \x7d`. -/
inductive Seg where
  | lit (s : String)
  | escL
  | escR
  | ph (name : String)

/-- The characters a segment contributes to the template body. -/
def Seg.chars : Seg → List Char
  | .lit s => s.data
  | .escL => ['{', '{']
  | .escR => ['}', '}']
  | .ph n => '{' :: (n.data ++ ['}'])

/-- Well-formedness of a segment: literals contain no braces; placeholder
names are non-empty, not purely numeric (which Python would treat as a
positional index), and contain no scan-terminating characters. -/
def Seg.wf : Seg → Bool
  | .lit s => s.data.all isPlainChar
  | .escL => true
  | .escR => true
  | .ph n => !n.data.isEmpty && !n.data.all Char.isDigit && n.data.all isNameChar

/-- Template body described by a segment list. -/
def segsChars (segs : List Seg) : List Char := (segs.map Seg.chars).flatten

/-- Spec-level rendering of a segment list: the first placeholder whose name is
not bound in the keyword arguments raises `KeyError`; otherwise each
placeholder is replaced by its bound value. -/
def renderSegs (kw : List (String × String)) : List Seg → Except PyErr (List Char)
  | [] => .ok []
  | .lit s :: t => (renderSegs kw t).map (fun r => s.data ++ r)
  | .escL :: t => (renderSegs kw t).map (fun r => '{' :: r)
  | .escR :: t => (renderSegs kw t).map (fun r => '}' :: r)
  | .ph n :: t =>
    match lookupKw kw n with
    | none => .error (.keyError n)
    | some v => (renderSegs kw t).map (fun r => v.data ++ r)

/-- Name of the first placeholder, in template order, that the supplied
keyword arguments do not bind. -/
def firstMissingPh (kw : List (String × String)) : List Seg → Option String
  | [] => none
  | .ph n :: t =>
    match lookupKw kw n with
    | none => some n
    | some _ => firstMissingPh kw t
  | _ :: t => firstMissingPh kw t

/-- Full substitution of a segment list (unbound placeholders, which only
occur when `firstMissingPh` is `some`, default to the empty string). -/
def substSegs (kw : List (String × String)) : List Seg → List Char
  | [] => []
  | .lit s :: t => s.data ++ substSegs kw t
  | .escL :: t => '{' :: substSegs kw t
  | .escR :: t => '}' :: substSegs kw t
  | .ph n :: t => ((lookupKw kw n).getD "").data ++ substSegs kw t

lemma reverseAux_append_left (a b r : List Char) :
    (a ++ b).reverseAux r = b.reverseAux (a.reverseAux r) := by
  simp [List.reverseAux_eq, List.append_assoc]

lemma pyFormatCore_text_plain (kw : List (String × String)) (cs : List Char)
    (h : ∀ c ∈ cs, isPlainChar c = true) (outRev rest : List Char) :
    pyFormatCore kw .text outRev (cs ++ rest) =
      pyFormatCore kw .text (cs.reverseAux outRev) rest := by
  induction cs generalizing outRev with
  | nil => rfl
  | cons c t ih =>
    have hc := h c (List.mem_cons_self _ _)
    simp only [isPlainChar, Bool.and_eq_true, bne_iff_ne, ne_eq] at hc
    simp only [List.cons_append, pyFormatCore, if_neg hc.1, if_neg hc.2, List.reverseAux]
    exact ih (fun x hx => h x (List.mem_cons_of_mem _ hx)) _

lemma pyFormatCore_field_name (kw : List (String × String)) (ncs : List Char)
    (h : ∀ c ∈ ncs, isNameChar c = true) (accRev outRev rest : List Char) :
    pyFormatCore kw (.field accRev) outRev (ncs ++ '}' :: rest) =
      match resolveField kw (ncs.reverseAux accRev) none with
      | .error e => .error e
      | .ok v => pyFormatCore kw .text (v.reverseAux outRev) rest := by
  induction ncs generalizing accRev with
  | nil =>
    simp only [List.nil_append, pyFormatCore, if_pos rfl, if_true, List.reverseAux]
  | cons c t ih =>
    have hc := h c (List.mem_cons_self _ _)
    simp only [isNameChar, Bool.and_eq_true, bne_iff_ne, ne_eq] at hc
    obtain ⟨⟨⟨⟨⟨h1, h2⟩, h3⟩, h4⟩, -⟩, -⟩ := hc
    simp only [List.cons_append, pyFormatCore, if_neg h2, if_neg h1, if_neg h3, if_neg h4,
      List.reverseAux]
    exact ih (fun x hx => h x (List.mem_cons_of_mem _ hx)) _

lemma splitFieldName_plain :
    ∀ {cs : List Char}, (∀ c ∈ cs, c ≠ '.' ∧ c ≠ '[') → splitFieldName cs = (cs, []) := by
  intro cs
  induction cs with
  | nil => intro _; rfl
  | cons c t ih =>
    intro h
    have hc := h c (List.mem_cons_self _ _)
    simp only [splitFieldName, if_neg (show ¬(c = '.' ∨ c = '[') by simp [hc.1, hc.2])]
    simp [ih (fun x hx => h x (List.mem_cons_of_mem _ hx))]

lemma pyFormatCore_segs (kw : List (String × String)) (segs : List Seg)
    (h : segs.all Seg.wf = true) (outRev rest : List Char) :
    pyFormatCore kw .text outRev (segsChars segs ++ rest) =
      match renderSegs kw segs with
      | .error e => .error e
      | .ok out => pyFormatCore kw .text (out.reverseAux outRev) rest := by
  induction segs generalizing outRev with
  | nil => simp [segsChars, renderSegs, List.reverseAux]
  | cons s t ih =>
    rw [List.all_cons, Bool.and_eq_true] at h
    obtain ⟨hs, ht⟩ := h
    have hchars : segsChars (s :: t) = s.chars ++ segsChars t := by
      simp [segsChars]
    cases s with
    | lit str =>
      rw [hchars]
      simp only [Seg.chars, List.append_assoc]
      rw [pyFormatCore_text_plain kw str.data
        (by simpa [Seg.wf, List.all_eq_true] using hs) outRev _]
      rw [ih ht]
      simp only [renderSegs]
      cases renderSegs kw t with
      | error e => rfl
      | ok out => simp [Except.map, reverseAux_append_left]
    | escL =>
      rw [hchars]
      simp only [Seg.chars, List.cons_append, List.nil_append]
      rw [show pyFormatCore kw .text outRev
          ('{' :: ('{' :: (segsChars t ++ rest))) =
          pyFormatCore kw .text ('{' :: outRev) (segsChars t ++ rest) from by
        simp [pyFormatCore]]
      rw [ih ht]
      simp only [renderSegs]
      cases renderSegs kw t with
      | error e => rfl
      | ok out => simp [Except.map, reverseAux_append_left, List.reverseAux]
    | escR =>
      rw [hchars]
      simp only [Seg.chars, List.cons_append, List.nil_append]
      rw [show pyFormatCore kw .text outRev
          ('}' :: ('}' :: (segsChars t ++ rest))) =
          pyFormatCore kw .text ('}' :: outRev) (segsChars t ++ rest) from by
        simp [pyFormatCore]]
      rw [ih ht]
      simp only [renderSegs]
      cases renderSegs kw t with
      | error e => rfl
      | ok out => simp [Except.map, reverseAux_append_left, List.reverseAux]
    | ph n =>
      simp only [Seg.wf, Bool.and_eq_true, Bool.not_eq_true'] at hs
      obtain ⟨⟨hne, hdig⟩, hname⟩ := hs
      have hne2 : n.data ≠ [] := by
        intro hh
        rw [hh] at hne
        simp [List.isEmpty] at hne
      rw [hchars]
      simp only [Seg.chars, List.cons_append, List.append_assoc, List.nil_append]
      rw [show pyFormatCore kw .text outRev
          ('{' :: (n.data ++ ('}' :: (segsChars t ++ rest)))) =
          pyFormatCore kw (.field []) outRev (n.data ++ ('}' :: (segsChars t ++ rest))) from by
        simp [pyFormatCore]]
      have hname2 : ∀ c ∈ n.data, isNameChar c = true := by
        simpa [List.all_eq_true] using hname
      rw [pyFormatCore_field_name kw n.data hname2 [] outRev _]
      have hsplit : splitFieldName n.data = (n.data, []) := by
        apply splitFieldName_plain
        intro c hcm
        have hcn := hname2 c hcm
        simp only [isNameChar, Bool.and_eq_true, bne_iff_ne, ne_eq] at hcn
        obtain ⟨⟨-, hdot⟩, hbr⟩ := hcn
        exact ⟨hdot, hbr⟩
      have hrev2 : (n.data.reverseAux []).reverse = n.data := by
        simp [List.reverseAux_eq]
      have hres : resolveField kw (n.data.reverseAux []) none =
          match lookupKw kw n with
          | none => .error (.keyError n)
          | some v => .ok v.data := by
        unfold resolveField
        rw [hrev2, hsplit]
        dsimp only
        rw [if_neg hne2, if_neg (by simp [hdig])]
      rw [hres]
      simp only [renderSegs]
      cases hlk : lookupKw kw n with
      | none => rfl
      | some v =>
        dsimp only
        rw [ih ht]
        cases renderSegs kw t with
        | error e => rfl
        | ok out => simp [Except.map, reverseAux_append_left]

lemma renderSegs_eq (kw : List (String × String)) (segs : List Seg) :
    renderSegs kw segs =
      match firstMissingPh kw segs with
      | some n => .error (.keyError n)
      | none => .ok (substSegs kw segs) := by
  induction segs with
  | nil => rfl
  | cons s t ih =>
    cases s with
    | lit str =>
      simp only [renderSegs, firstMissingPh, substSegs, ih]
      cases firstMissingPh kw t <;> rfl
    | escL =>
      simp only [renderSegs, firstMissingPh, substSegs, ih]
      cases firstMissingPh kw t <;> rfl
    | escR =>
      simp only [renderSegs, firstMissingPh, substSegs, ih]
      cases firstMissingPh kw t <;> rfl
    | ph n =>
      simp only [renderSegs, firstMissingPh, substSegs, ih]
      cases hlk : lookupKw kw n with
      | none => rfl
      | some v =>
        cases firstMissingPh kw t <;> simp [hlk, Except.map]


/-- A PDF document as `PyPDF2.PdfReader` exposes it to
`PyPDF2Extractor.extract_text`: the `is_encrypted` flag and the per-page
results of `page.extract_text()`, in page order. -/
structure PdfDoc where
  is_encrypted : Bool
  pages : List String

/-- Python `"\n".join(parts)` (`str.join` with a newline separator). -/
def pyJoin : List String → String
  | [] => ""
  | [s] => s
  | s :: rest => s ++ "\n" ++ pyJoin rest

/-- Python whitespace as used by `str.strip()` / `str.isspace()`: the full
set CPython strips — 0x09-0x0D, the separators 0x1C-0x1F, space, NEL (0x85),
NBSP (0xA0), Ogham space mark (0x1680), the Zs range 0x2000-0x200A, the line
and paragraph separators 0x2028/0x2029, narrow no-break space (0x202F),
medium mathematical space (0x205F), and ideographic space (0x3000). -/
def pyIsSpace (c : Char) : Bool :=
  (9 ≤ c.toNat && c.toNat ≤ 13) || (28 ≤ c.toNat && c.toNat ≤ 32) ||
  c.toNat = 133 || c.toNat = 160 || c.toNat = 5760 ||
  (8192 ≤ c.toNat && c.toNat ≤ 8202) || c.toNat = 8232 || c.toNat = 8233 ||
  c.toNat = 8239 || c.toNat = 8287 || c.toNat = 12288

/-- Python `s.strip()` on the character list. -/
def pyStripChars (cs : List Char) : List Char :=
  ((cs.dropWhile pyIsSpace).reverse.dropWhile pyIsSpace).reverse

/-- `PyPDF2Extractor.extract_text` of src/core/extractors.py.  The argument is
the outcome of `PyPDF2.PdfReader(file)`: a parsed document, or the library
exception that call raised.  The inner computation raises
`TextExtractionError("Encrypted PDFs are not supported")` for an encrypted
document, joins the page texts with newlines in page order, and raises
`TextExtractionError("No text content found in PDF")` when the joined text is
empty after `strip()`.  The method's blanket `except Exception` clause then
catches every failure — including those two self-raised errors — and
re-raises `TextExtractionError(f"Failed to extract text: {str(e)}")`, whose
`original_error` field keeps its default `None`. -/
def PyPDF2Extractor.extract_text (readPdf : Except PyErr PdfDoc) : Except PyErr String :=
  let body : Except PyErr String :=
    match readPdf with
    | .error e => .error e
    | .ok reader =>
      if reader.is_encrypted then
        .error (.appError .textExtractionError "Encrypted PDFs are not supported" none)
      else
        let extracted_text := pyJoin reader.pages
        if pyStripChars extracted_text.data = [] then
          .error (.appError .textExtractionError "No text content found in PDF" none)
        else
          .ok extracted_text
  match body with
  | .ok s => .ok s
  | .error e =>
    .error (.appError .textExtractionError ("Failed to extract text: " ++ pyStrErr e) none)

/-- Instance test against the `PDFAudioError` hierarchy of
src/core/exceptions.py (every class of that module subclasses it). -/
def isPDFAudioError : PyErr → Bool
  | .appError _ _ _ => true
  | _ => false

/-- The `handle_exceptions(error_message)` decorator of
src/core/error_handler.py, applied to the wrapped call's outcome: a
`PDFAudioError` instance is logged and re-raised unchanged, and any other
exception is wrapped into
`PDFAudioError(f"{error_message}: {str(e)}", original_error=e)`. -/
def handle_exceptions {α : Type} (error_message : String) (outcome : Except PyErr α) :
    Except PyErr α :=
  match outcome with
  | .ok a => .ok a
  | .error e =>
    if isPDFAudioError e then .error e
    else .error (.appError .pdfAudioError (error_message ++ ": " ++ pyStrErr e) (some e))

/-- A request issued through `requests.Session.post` by
src/core/tts/service.py: the URL and the JSON payload fields. -/
structure TTSRequest where
  url : String
  text : String
  model_id : String
  output_format : String
deriving DecidableEq

/-- `ElevenLabsService.text_to_speech` of src/core/tts/service.py: builds the
streaming URL and payload and issues exactly one POST — the `remote` parameter
models the HTTP session (`.error` is a raise from `post`/`raise_for_status`,
`.ok` the chunks of `response.iter_content`).  Received chunks are written to
the temporary file in arrival order, skipping falsy (empty) chunks; the
returned bytes model the re-opened file's content.  Any failure is re-raised
as `TTSAPIError(f"Failed to convert text to speech: {str(e)}")`.  The first
component lists the requests issued: the method contains no emptiness check
on `text`, so the request is issued unconditionally. -/
def ElevenLabsService.text_to_speech
    (remote : TTSRequest → Except PyErr (List (List Nat)))
    (text voice_id : String) (output_format : String := "mp3_44100_128") :
    List TTSRequest × Except PyErr (List Nat) :=
  let url := "https://api.elevenlabs.io/v1/text-to-speech/" ++ voice_id ++ "/stream"
  let req : TTSRequest := ⟨url, text, "eleven_turbo_v2_5", output_format⟩
  ([req],
    match remote req with
    | .error e => .error (.ttsAPIError ("Failed to convert text to speech: " ++ pyStrErr e))
    | .ok chunks => .ok (chunks.foldl (fun acc c => if c.isEmpty then acc else acc ++ c) []))

/-- Value of one base64 alphabet character; `none` for a character outside the
alphabet (on which `base64.b64decode` raises `binascii.Error`). -/
def b64Val (c : Char) : Option Nat :=
  if 'A' ≤ c ∧ c ≤ 'Z' then some (c.toNat - 65)
  else if 'a' ≤ c ∧ c ≤ 'z' then some (c.toNat - 97 + 26)
  else if '0' ≤ c ∧ c ≤ '9' then some (c.toNat - 48 + 52)
  else if c = '+' then some 62
  else if c = '/' then some 63
  else none

/-- `base64.b64decode` on a padded base64 string: four characters become three
bytes, with `=` padding allowed only in the final group; malformed input is a
`binascii.Error`, modelled as `ValueError`. -/
def b64DecodeGroups : List Char → Except PyErr (List Nat)
  | [] => .ok []
  | c1 :: c2 :: c3 :: c4 :: rest =>
    match b64Val c1, b64Val c2 with
    | some v1, some v2 =>
      if c3 = '=' then
        if c4 = '=' ∧ rest = [] then .ok [v1 * 4 + v2 / 16]
        else .error (.valueError "Invalid base64-encoded string")
      else
        match b64Val c3 with
        | some v3 =>
          if c4 = '=' then
            if rest = [] then .ok [v1 * 4 + v2 / 16, (v2 % 16) * 16 + v3 / 4]
            else .error (.valueError "Invalid base64-encoded string")
          else
            match b64Val c4 with
            | some v4 =>
              match b64DecodeGroups rest with
              | .error e => .error e
              | .ok bs =>
                .ok ([v1 * 4 + v2 / 16, (v2 % 16) * 16 + v3 / 4, (v3 % 4) * 64 + v4] ++ bs)
            | none => .error (.valueError "Invalid base64-encoded string")
        | none => .error (.valueError "Invalid base64-encoded string")
    | _, _ => .error (.valueError "Invalid base64-encoded string")
  | _ => .error (.valueError "Invalid base64-encoded string")

/-- `base64.b64decode` on a Python string. -/
def b64decode (s : String) : Except PyErr (List Nat) := b64DecodeGroups s.data

/-- One parsed JSON line of the `with-timestamps` streaming response: an
optional `audio_base64` fragment and an optional `alignment` fragment (a list
of alignment items, opaque to the adapter, which only `extend`s them onto its
accumulator).  Lines filtered out by `if line:` are not represented. -/
structure TTSStreamChunk (α : Type) where
  audio_base64 : Option String
  alignment : Option (List α)

/-- The `if "alignment" in chunk and chunk["alignment"]` step of the chunk
loop: a truthy alignment fragment is `extend`ed onto the timestamp list,
a missing or falsy (empty) one is skipped. -/
def extendAlignment {α : Type} (ts : List α) : Option (List α) → List α
  | none => ts
  | some al => if al.isEmpty then ts else ts ++ al

/-- The chunk loop of `text_to_speech_with_timestamps`: for each line in
arrival order, a present `audio_base64` fragment is base64-decoded and
appended to the file (`f.write`), and a truthy `alignment` fragment is
`extend`ed onto the timestamp list. -/
def processTTSChunks {α : Type} :
    List (TTSStreamChunk α) → List Nat → List α → Except PyErr (List Nat × List α)
  | [], audio, ts => .ok (audio, ts)
  | ⟨ab, al⟩ :: rest, audio, ts =>
    match ab with
    | some b64 =>
      match b64decode b64 with
      | .error e => .error e
      | .ok bytes => processTTSChunks rest (audio ++ bytes) (extendAlignment ts al)
    | none => processTTSChunks rest audio (extendAlignment ts al)

/-- `ElevenLabsService.text_to_speech_with_timestamps` of
src/core/tts/service.py: one POST to the `with-timestamps` streaming endpoint
(issued unconditionally — no emptiness check on `text`), then the chunk loop;
every failure is re-raised as `TTSAPIError`. -/
def ElevenLabsService.text_to_speech_with_timestamps {α : Type}
    (remote : TTSRequest → Except PyErr (List (TTSStreamChunk α)))
    (text voice_id : String) (output_format : String := "mp3_44100_128") :
    List TTSRequest × Except PyErr (List Nat × List α) :=
  let url := "https://api.elevenlabs.io/v1/text-to-speech/" ++ voice_id
    ++ "/stream/with-timestamps"
  let req : TTSRequest := ⟨url, text, "eleven_turbo_v2_5", output_format⟩
  ([req],
    match remote req with
    | .error e => .error (.ttsAPIError ("Failed to convert text to speech: " ++ pyStrErr e))
    | .ok chunks =>
      match processTTSChunks chunks [] [] with
      | .error e => .error (.ttsAPIError ("Failed to convert text to speech: " ++ pyStrErr e))
      | .ok r => .ok r)

/-- Audio fragments of a chunk sequence, in arrival order, decoded one by one
(spec-level description used to state the concatenation property). -/
def decodeAll : List String → Except PyErr (List (List Nat))
  | [] => .ok []
  | b :: t =>
    match b64decode b with
    | .error e => .error e
    | .ok d =>
      match decodeAll t with
      | .error e => .error e
      | .ok ds => .ok (d :: ds)

/-- Alignment fragments of a chunk sequence concatenated in arrival order
(spec-level description). -/
def alignmentConcat {α : Type} (chunks : List (TTSStreamChunk α)) : List α :=
  (chunks.filterMap (fun ch => ch.alignment)).flatten

/-- Outcome of `self._client.generate_content(prompt)` in
src/core/llm/service.py: a transport/API raise, or a response whose `.text`
attribute is an optional string (both `None` and `""` are falsy in the
`if not response.text` test). -/
def GenerateContent : Type := String → Except PyErr (Option String)

/-- `GeminiService.process_text` of src/core/llm/service.py: formats
`prompt_template.format(text=text, **kwargs)`, issues one `generate_content`
call, raises `LLMError("Empty response from Gemini")` on a falsy response
text, and returns the text otherwise.  The method's blanket
`except Exception` clause catches every failure — including that self-raised
`LLMError` — and re-raises `LLMAPIError(f"Failed to process text: {str(e)}")`.
The first component lists the prompts actually sent. -/
def GeminiService.process_text (generate : GenerateContent)
    (text : String) (prompt_template : String) (kwargs : List (String × String)) :
    List String × Except PyErr String :=
  let fmt := pyStrFormat prompt_template (("text", text) :: kwargs)
  let calls : List String := match fmt with
    | .ok p => [p]
    | .error _ => []
  let body : Except PyErr String :=
    match fmt with
    | .error e => .error e
    | .ok prompt =>
      match generate prompt with
      | .error e => .error e
      | .ok resp =>
        if resp.getD "" = "" then .error (.llmError "Empty response from Gemini")
        else .ok (resp.getD "")
  (calls,
    match body with
    | .ok s => .ok s
    | .error e => .error (.llmAPIError ("Failed to process text: " ++ pyStrErr e)))

/-- Python `str()` of an optional string value handed to a format placeholder:
`None` renders as `"None"`. -/
def pyStrOpt : Option String → String
  | none => "None"
  | some s => s

/-- `PDFService.analyze_text` of src/services/pdf_service.py: fetches the
template, formats it with `content=text` and
`research_area=research_area or "general research"` (Python `or`: `None` and
`""` both fall back), then calls `GeminiService.process_text` with the raw
text and the formatted prompt.  The `text` parameter is optional because the
UI passes `st.session_state.extracted_text`, which is `None` before any
document has been processed; the method performs no availability check on it.
The `except` clause re-raises unchanged (bare `raise`), so errors propagate
as-is.  The first component lists the prompts sent to the remote service. -/
def PDFService.analyze_text (generate : GenerateContent)
    (text : Option String) (template_type : PyPromptKey) (research_area : Option String) :
    List String × Except PyErr String :=
  let ra := match research_area with
    | none => "general research"
    | some s => if s = "" then "general research" else s
  match PromptLibrary.get_template template_type with
  | .error e => ([], .error e)
  | .ok template =>
    match template.format [("content", pyStrOpt text), ("research_area", ra)] with
    | .error e => ([], .error e)
    | .ok formatted_prompt =>
      GeminiService.process_text generate (pyStrOpt text) formatted_prompt []

/-- The Streamlit session-state fields of src/ui/app.py that the pipeline
operations touch (initialised by `initialize_session_state`), together with the
`PDFService._extracted_text` field the service object holds. -/
structure SessionState where
  extracted_text : Option String
  analyzed_text : Option String
  processing_complete : Bool
  analysis_complete : Bool
  audio_ready : Bool
  audio_data : Option (List Nat)
  timestamps : Option Unit
  chapter_breakdown : Option String
  study_guide : Option String
  bibliography : Option String
  svc_extracted_text : Option String
deriving DecidableEq

/-- The state `initialize_session_state` establishes for a fresh session. -/
def initialSessionState : SessionState :=
  { extracted_text := none
    analyzed_text := none
    processing_complete := false
    analysis_complete := false
    audio_ready := false
    audio_data := none
    timestamps := none
    chapter_breakdown := none
    study_guide := none
    bibliography := none
    svc_extracted_text := none }

/-- The `Process PDF` button handler of `render_pdf_viewer` in src/ui/app.py,
given the outcome of `pdf_service.process_file`: on success the service has
stored the new text in `_extracted_text` and the handler sets
`extracted_text` and `processing_complete`; every other session field is left
untouched.  On failure an error is displayed and the state is unchanged
(aside from whatever the service mutated before failing, which the claims do
not touch). -/
def render_pdf_viewer_process (st : SessionState) (processResult : Except PyErr String) :
    SessionState :=
  match processResult with
  | .ok text =>
    { st with
        svc_extracted_text := some text
        extracted_text := some text
        processing_complete := true }
  | .error _ => st

/-- Outcome of the analyze-button path of `render_ai_options` in
src/ui/app.py: the early `st.info` return taken when no processed text
exists (so `analyze_text` is never invoked), or the invocation of
`PDFService.analyze_text` with the session's `extracted_text`. -/
inductive AnalyzeDispatch where
  | info (msg : String)
  | invoked (text : Option String) (research_area : String)
deriving DecidableEq

/-- The guard and dispatch of `render_ai_options` for the analyze action:
`if not st.session_state.processing_complete: st.info(...); return`,
otherwise `analyze_text(text=st.session_state.extracted_text, ...)`. -/
def render_ai_options_analyze (st : SessionState) (research_area : String) :
    AnalyzeDispatch :=
  if st.processing_complete = false then .info "Please process a PDF first"
  else .invoked st.extracted_text research_area


lemma String.data_append_eq (a b : String) : (a ++ b).data = a.data ++ b.data := rfl

lemma mem_dropWhile_self {p : Char → Bool} {x : Char} (hx : p x = false) :
    ∀ {l : List Char}, x ∈ l → x ∈ l.dropWhile p := by
  intro l
  induction l with
  | nil => intro h; exact absurd h (List.not_mem_nil x)
  | cons a t ih =>
    intro hmem
    rw [List.dropWhile_cons]
    by_cases hpa : p a = true
    · rw [if_pos hpa]
      rcases List.mem_cons.mp hmem with h | h
      · rw [h] at hx; rw [hx] at hpa; cases hpa
      · exact ih h
    · rw [if_neg hpa]
      exact hmem

lemma pyStripChars_ne_nil {cs : List Char} {c : Char} (hc : c ∈ cs)
    (hs : pyIsSpace c = false) : pyStripChars cs ≠ [] := by
  intro h
  unfold pyStripChars at h
  rw [List.reverse_eq_nil_iff] at h
  have h1 : c ∈ (cs.dropWhile pyIsSpace).reverse :=
    List.mem_reverse.mpr (mem_dropWhile_self hs hc)
  have h2 : c ∈ ((cs.dropWhile pyIsSpace).reverse).dropWhile pyIsSpace :=
    mem_dropWhile_self hs h1
  rw [h] at h2
  exact absurd h2 (List.not_mem_nil c)

lemma mem_pyJoin {c : Char} :
    ∀ {pages : List String} {p : String}, p ∈ pages → c ∈ p.data →
      c ∈ (pyJoin pages).data := by
  intro pages
  induction pages with
  | nil => intro p hp _; exact absurd hp (List.not_mem_nil p)
  | cons s rest ih =>
    intro p hp hc
    cases rest with
    | nil =>
      rcases List.mem_cons.mp hp with h | h
      · rw [← h]; exact hc
      · exact absurd h (List.not_mem_nil p)
    | cons s2 r2 =>
      show c ∈ (s ++ "\n" ++ pyJoin (s2 :: r2)).data
      rw [String.data_append_eq, String.data_append_eq]
      rcases List.mem_cons.mp hp with h | h
      · rw [h] at hc
        exact List.mem_append_left _ (List.mem_append_left _ hc)
      · exact List.mem_append_right _ (ih h hc)

lemma extendAlignment_eq {α : Type} (ts : List α) (al : Option (List α)) :
    extendAlignment ts al = ts ++ al.getD [] := by
  cases al with
  | none => simp [extendAlignment]
  | some l => cases l <;> simp [extendAlignment, List.isEmpty]

lemma alignmentConcat_cons {α : Type} (ab : Option String) (al : Option (List α))
    (rest : List (TTSStreamChunk α)) :
    alignmentConcat (⟨ab, al⟩ :: rest) = al.getD [] ++ alignmentConcat rest := by
  cases al <;> simp [alignmentConcat, List.filterMap_cons]

lemma processTTSChunks_spec {α : Type} :
    ∀ (chunks : List (TTSStreamChunk α)) (frags : List (List Nat))
      (audio : List Nat) (ts : List α),
      decodeAll (chunks.filterMap (fun ch => ch.audio_base64)) = .ok frags →
      processTTSChunks chunks audio ts =
        .ok (audio ++ frags.flatten, ts ++ alignmentConcat chunks) := by
  intro chunks
  induction chunks with
  | nil =>
    intro frags audio ts h
    simp only [List.filterMap_nil, decodeAll, Except.ok.injEq] at h
    rw [← h]
    simp [processTTSChunks, alignmentConcat]
  | cons ch rest ih =>
    intro frags audio ts h
    obtain ⟨ab, al⟩ := ch
    cases hab : ab with
    | none =>
      rw [hab] at h
      rw [List.filterMap_cons] at h
      simp only at h
      simp only [processTTSChunks, alignmentConcat_cons]
      rw [ih frags audio (extendAlignment ts al) h, extendAlignment_eq]
      simp [List.append_assoc]
    | some b64 =>
      rw [hab] at h
      rw [List.filterMap_cons] at h
      simp only at h
      simp only [decodeAll] at h
      cases hdec : b64decode b64 with
      | error e => rw [hdec] at h; cases h
      | ok bytes =>
        rw [hdec] at h
        cases hrest : decodeAll (rest.filterMap (fun ch => ch.audio_base64)) with
        | error e => rw [hrest] at h; cases h
        | ok ds =>
          rw [hrest] at h
          simp only [Except.ok.injEq] at h
          rw [← h]
          simp only [processTTSChunks, hdec, alignmentConcat_cons]
          rw [ih ds (audio ++ bytes) (extendAlignment ts al) hrest, extendAlignment_eq]
          simp [List.append_assoc]


set_option maxRecDepth 100000

/-- Recogniser for the missing-parameter error form raised by
`PromptTemplate.format` (used to state that another error is not of that
form). -/
def isMissingParamMsg : Except PyErr String → Bool
  | .error (.valueError m) => "Missing required parameter".data.isPrefixOf m.data
  | _ => false

lemma extract_text_ok_eval (pages : List String) :
    PyPDF2Extractor.extract_text (.ok ⟨false, pages⟩) =
      if pyStripChars (pyJoin pages).data = [] then
        .error (.appError .textExtractionError
          "Failed to extract text: No text content found in PDF" none)
      else .ok (pyJoin pages) := by
  by_cases h : pyStripChars (pyJoin pages).data = []
  · simp [PyPDF2Extractor.extract_text, h]
    rfl
  · simp [PyPDF2Extractor.extract_text, h]

/-- Claim C1 (code_bug): `get_template` is supposed to hand out templates
whose `format` succeeds once every name in their `parameters` mapping is
supplied, and `test_bibliography_template` in tests/test_prompts.py asserts
exactly that for BIBLIOGRAPHY; but the JSON examples inside the BIBLIOGRAPHY
and APA_CITATION template bodies use single (unescaped) braces, so `str.format`
parses them as replacement fields and `format` raises even when `content` and
`research_area` are supplied.  This theorem evaluates the registry at the two
failing inputs (the descriptions are non-empty as claimed). -/
theorem C1_bibliography_apa_format_fail :
    PromptLibrary.get_template (.core .BIBLIOGRAPHY) = .ok bibliographyTemplate ∧
    bibliographyTemplate.description ≠ "" ∧
    bibliographyTemplate.format [("content", "paper text"), ("research_area", "ml")] =
      .error (.valueError
        "Missing required parameter: \x27\n                    \"references\"\x27") ∧
    PromptLibrary.get_template (.core .APA_CITATION) = .ok apaCitationTemplate ∧
    apaCitationTemplate.description ≠ "" ∧
    apaCitationTemplate.format [("content", "paper text")] =
      .error (.valueError
        "Missing required parameter: \x27\n                  \"annotatedBibliography\"\x27") := by
  refine ⟨rfl, ?_, rfl, rfl, ?_, rfl⟩ <;> decide

/-- Claim C2 (counterexample): the claim asserts that for every template,
`format` either raises a missing-parameter error or returns the substituted
string; the template body `"\x7d"` contains no placeholder at all, yet `format`
raises a stray-brace `ValueError` that is not of the missing-parameter form. -/
theorem C2_counterexample :
    PromptTemplate.format ⟨"\x7d", "test", []⟩ [] =
      .error (.valueError "Single close brace encountered in format string") ∧
    isMissingParamMsg (PromptTemplate.format ⟨"\x7d", "test", []⟩ []) = false := ⟨rfl, rfl⟩

/-- Claim C2 (amended): for every template whose body is a well-formed
sequence of brace-free literals, doubled-brace escapes, and simple named
placeholders (non-empty, non-numeric names without attribute or index access,
i.e. containing no `.` or `[`), `format` raises
`ValueError("Missing required parameter: ...")` naming the first placeholder
with no supplied value, and otherwise returns the substituted string; supplied
values no placeholder references are silently ignored, and the result is a
function of the template and arguments alone (deterministic). -/
theorem C2_template_format_behavior (t : PromptTemplate) (segs : List Seg)
    (hbody : t.template.data = segsChars segs) (hwf : segs.all Seg.wf = true)
    (kw : List (String × String)) :
    t.format kw =
      match firstMissingPh kw segs with
      | some n => .error (.valueError ("Missing required parameter: \x27" ++ n ++ "\x27"))
      | none => .ok (String.mk (substSegs kw segs)) := by
  have hcore := pyFormatCore_segs kw segs hwf [] []
  rw [List.append_nil] at hcore
  unfold PromptTemplate.format pyStrFormat
  rw [hbody, hcore, renderSegs_eq]
  cases hfm : firstMissingPh kw segs with
  | some n => rfl
  | none =>
    simp [pyFormatCore, Except.map, List.reverseAux_eq]

/-- Claim C2 (witness): the test fixture template of tests/test_prompts.py,
formatted with `content` but without `research_area`, raises the
missing-parameter error naming `research_area`. -/
theorem C2_witness :
    PromptTemplate.format
        ⟨"Analyze this: \x7bcontent\x7d for \x7bresearch_area\x7d", "Test template",
          [("content", "Content to analyze"), ("research_area", "Research area")]⟩
        [("content", "test content")] =
      .error (.valueError "Missing required parameter: \x27research_area\x27") := by
  have h := C2_template_format_behavior
    ⟨"Analyze this: \x7bcontent\x7d for \x7bresearch_area\x7d", "Test template",
      [("content", "Content to analyze"), ("research_area", "Research area")]⟩
    [Seg.lit "Analyze this: ", Seg.ph "content", Seg.lit " for ", Seg.ph "research_area"]
    rfl rfl [("content", "test content")]
  exact h.trans rfl

/-- Claim C3 (counterexample): synthesis with empty text is supposed to fail
fast with an empty-input error before any remote call; in fact both variants
issue their POST unconditionally — with `text=""` the request list is
non-empty and the call completes without any error. -/
theorem C3_counterexample :
    (ElevenLabsService.text_to_speech (fun _ => .ok []) "" "voice1" "mp3_44100_128").1 =
      [⟨"https://api.elevenlabs.io/v1/text-to-speech/voice1/stream", "",
        "eleven_turbo_v2_5", "mp3_44100_128"⟩] ∧
    (ElevenLabsService.text_to_speech (fun _ => .ok []) "" "voice1" "mp3_44100_128").2 =
      .ok [] ∧
    (ElevenLabsService.text_to_speech_with_timestamps (α := Unit) (fun _ => .ok []) ""
        "voice1" "mp3_44100_128").1 =
      [⟨"https://api.elevenlabs.io/v1/text-to-speech/voice1/stream/with-timestamps", "",
        "eleven_turbo_v2_5", "mp3_44100_128"⟩] := ⟨rfl, rfl, rfl⟩

/-- Claim C3 (amended): neither synthesis variant validates its input text:
each issues exactly one remote request carrying the given text verbatim,
empty or not, so no empty-input error exists and the fail-fast behaviour the
claim describes is absent. -/
theorem C3_amended_no_empty_check {α : Type}
    (remote : TTSRequest → Except PyErr (List (List Nat)))
    (remoteT : TTSRequest → Except PyErr (List (TTSStreamChunk α)))
    (text voice_id output_format : String) :
    (ElevenLabsService.text_to_speech remote text voice_id output_format).1 =
      [⟨"https://api.elevenlabs.io/v1/text-to-speech/" ++ voice_id ++ "/stream", text,
        "eleven_turbo_v2_5", output_format⟩] ∧
    (ElevenLabsService.text_to_speech_with_timestamps remoteT text voice_id
        output_format).1 =
      [⟨"https://api.elevenlabs.io/v1/text-to-speech/" ++ voice_id
          ++ "/stream/with-timestamps", text, "eleven_turbo_v2_5", output_format⟩] :=
  ⟨rfl, rfl⟩

/-- Claim C4 (counterexample): from the idle state the UI early-returns with
an info message, so no error is raised at all; and the service-level
`analyze_text`, invoked with no extracted text (`None`), performs no
availability check — it formats the string "None" into the prompt and returns
the remote service's analysis instead of failing with a no-text error. -/
theorem C4_counterexample :
    render_ai_options_analyze initialSessionState "testing" =
      .info "Please process a PDF first" ∧
    (PDFService.analyze_text (fun _ => .ok (some "analysis output")) none
        (.core .QUICK_REVIEW) none).2 = .ok "analysis output" := ⟨rfl, rfl⟩

/-- Claim C4 (amended): before any successful `process_file`
(`processing_complete = false`) the UI guard returns the info message
"Please process a PDF first" without invoking analyze; the service-level
`analyze_text` itself has no no-text check and still issues exactly one
remote call when handed `None` as the text. -/
theorem C4_amended_idle_behavior (st : SessionState) (ra : String)
    (h : st.processing_complete = false) (generate : GenerateContent) :
    render_ai_options_analyze st ra = .info "Please process a PDF first" ∧
    (PDFService.analyze_text generate none (.core .QUICK_REVIEW) none).1.length = 1 := by
  constructor
  · simp [render_ai_options_analyze, h]
  · rfl

/-- Claim C4 (witness): the amended statement at the fresh session state with
a concrete remote stub. -/
theorem C4_witness :
    render_ai_options_analyze initialSessionState "x" =
      .info "Please process a PDF first" ∧
    (PDFService.analyze_text (fun _ => .ok none) none
        (.core .QUICK_REVIEW) none).1.length = 1 :=
  C4_amended_idle_behavior initialSessionState "x" rfl (fun _ => .ok none)

/-- Claim C5 (counterexample): a session that has processed and analyzed a
first document keeps that document's analysis, analysis flag and audio fully
reachable after a second `process_file` — only the extracted text is
replaced. -/
theorem C5_counterexample :
    (render_pdf_viewer_process
        { initialSessionState with
            extracted_text := some "doc one text"
            svc_extracted_text := some "doc one text"
            processing_complete := true
            analyzed_text := some "analysis of doc one"
            analysis_complete := true
            audio_ready := true
            audio_data := some [1, 2, 3] }
        (.ok "doc two text")).analyzed_text = some "analysis of doc one" ∧
    (render_pdf_viewer_process
        { initialSessionState with
            extracted_text := some "doc one text"
            svc_extracted_text := some "doc one text"
            processing_complete := true
            analyzed_text := some "analysis of doc one"
            analysis_complete := true
            audio_ready := true
            audio_data := some [1, 2, 3] }
        (.ok "doc two text")).audio_data = some [1, 2, 3] := ⟨rfl, rfl⟩

/-- Claim C5 (amended): a second successful `process_file` replaces the
extracted text (in both the service object and the session) and marks
processing complete, but every other session field — analyzed text, analysis
flag, audio data and readiness, and the stored structured results — is left
exactly as the first document set it, until overwritten or cleared. -/
theorem C5_amended_partial_reset (st : SessionState) (t2 : String) :
    (render_pdf_viewer_process st (.ok t2)).extracted_text = some t2 ∧
    (render_pdf_viewer_process st (.ok t2)).svc_extracted_text = some t2 ∧
    (render_pdf_viewer_process st (.ok t2)).processing_complete = true ∧
    (render_pdf_viewer_process st (.ok t2)).analyzed_text = st.analyzed_text ∧
    (render_pdf_viewer_process st (.ok t2)).analysis_complete = st.analysis_complete ∧
    (render_pdf_viewer_process st (.ok t2)).audio_data = st.audio_data ∧
    (render_pdf_viewer_process st (.ok t2)).audio_ready = st.audio_ready ∧
    (render_pdf_viewer_process st (.ok t2)).bibliography = st.bibliography ∧
    (render_pdf_viewer_process st (.ok t2)).chapter_breakdown = st.chapter_breakdown ∧
    (render_pdf_viewer_process st (.ok t2)).study_guide = st.study_guide :=
  ⟨rfl, rfl, rfl, rfl, rfl, rfl, rfl, rfl, rfl, rfl⟩

/-- Claim C6 (confirmed): byte-level extraction of an unencrypted document
joins the page texts with newlines in page order; it fails with a
`TextExtractionError` when the joined text is empty, and succeeds — returning
the newline-join, which contains the witnessing character — whenever some
page contains a non-whitespace character. -/
theorem C6_byte_extraction (pages : List String) :
    (pyJoin pages = "" →
      PyPDF2Extractor.extract_text (.ok ⟨false, pages⟩) =
        .error (.appError .textExtractionError
          "Failed to extract text: No text content found in PDF" none)) ∧
    (∀ c : Char, pyIsSpace c = false → (∃ p, p ∈ pages ∧ c ∈ p.data) →
      PyPDF2Extractor.extract_text (.ok ⟨false, pages⟩) = .ok (pyJoin pages) ∧
      c ∈ (pyJoin pages).data) := by
  constructor
  · intro h
    rw [extract_text_ok_eval, if_pos (by rw [h]; rfl)]
  · rintro c hcs ⟨p, hp, hcp⟩
    have hmem : c ∈ (pyJoin pages).data := mem_pyJoin hp hcp
    have hne : pyStripChars (pyJoin pages).data ≠ [] := pyStripChars_ne_nil hmem hcs
    exact ⟨by rw [extract_text_ok_eval, if_neg hne], hmem⟩

/-- Claim C6 (witness): a document whose single page extracts to the empty
string fails with the extraction error, and the spec's two-page example
extracts to the newline-join containing its characters. -/
theorem C6_witness :
    PyPDF2Extractor.extract_text (.ok ⟨false, [""]⟩) =
      .error (.appError .textExtractionError
        "Failed to extract text: No text content found in PDF" none) ∧
    PyPDF2Extractor.extract_text (.ok ⟨false, ["Page1: Hello world", "Page2: Goodbye"]⟩) =
      .ok "Page1: Hello world\nPage2: Goodbye" ∧
    'H' ∈ "Page1: Hello world\nPage2: Goodbye".data := by
  have h1 := (C6_byte_extraction [""]).1 rfl
  have h2 := (C6_byte_extraction ["Page1: Hello world", "Page2: Goodbye"]).2 'H' rfl
    ⟨"Page1: Hello world", List.mem_cons_self _ _, by decide⟩
  exact ⟨h1, h2.1.trans rfl, by decide⟩

/-- Claim C7 (confirmed): when the aligned-synthesis stream succeeds, the
returned audio buffer is the concatenation, in arrival order, of the decoded
base64 audio fragments (so its length is the sum of the decoded fragment
lengths), and the returned alignment sequence is the concatenation of the
alignment fragments in arrival order. -/
theorem C7_stream_concatenation {α : Type}
    (remote : TTSRequest → Except PyErr (List (TTSStreamChunk α)))
    (text voice_id output_format : String)
    (chunks : List (TTSStreamChunk α)) (frags : List (List Nat))
    (hremote : remote ⟨"https://api.elevenlabs.io/v1/text-to-speech/" ++ voice_id
        ++ "/stream/with-timestamps", text, "eleven_turbo_v2_5", output_format⟩ =
      .ok chunks)
    (hdec : decodeAll (chunks.filterMap (fun ch => ch.audio_base64)) = .ok frags) :
    (ElevenLabsService.text_to_speech_with_timestamps remote text voice_id
        output_format).2 = .ok (frags.flatten, alignmentConcat chunks) ∧
    frags.flatten.length = (frags.map List.length).sum := by
  constructor
  · unfold ElevenLabsService.text_to_speech_with_timestamps
    simp only [hremote]
    rw [processTTSChunks_spec chunks frags [] [] hdec]
    simp
  · simp [List.length_flatten]

/-- Claim C7 (witness): a concrete three-chunk stream — audio `"aGVsbG8="`,
then a bare alignment fragment, then audio `"IQ=="` with an empty (falsy)
alignment — yields the byte concatenation `hello!` and the single alignment
item, in arrival order. -/
theorem C7_witness :
    (ElevenLabsService.text_to_speech_with_timestamps (α := Nat)
        (fun _ => .ok [⟨some "aGVsbG8=", none⟩, ⟨none, some [7]⟩, ⟨some "IQ==", some []⟩])
        "hi" "v1" "mp3_44100_128").2 =
      .ok ([104, 101, 108, 108, 111, 33], [7]) ∧
    ([[104, 101, 108, 108, 111], [33]] : List (List Nat)).flatten.length =
      (([[104, 101, 108, 108, 111], [33]] : List (List Nat)).map List.length).sum := by
  have h := C7_stream_concatenation (α := Nat)
    (fun _ => .ok [⟨some "aGVsbG8=", none⟩, ⟨none, some [7]⟩, ⟨some "IQ==", some []⟩])
    "hi" "v1" "mp3_44100_128"
    [⟨some "aGVsbG8=", none⟩, ⟨none, some [7]⟩, ⟨some "IQ==", some []⟩]
    [[104, 101, 108, 108, 111], [33]] rfl rfl
  exact ⟨h.1.trans rfl, h.2⟩

/-- Claim C8 (counterexample): the empty-response failure is supposed to be a
kind distinct from the remote-call-failure kind, but the blanket
`except Exception` in `process_text` catches the internally raised
`LLMError("Empty response from Gemini")` and re-raises it as `LLMAPIError` —
the exact class transport failures surface as; the two cases differ only in
message. -/
theorem C8_counterexample :
    (GeminiService.process_text (fun _ => .ok (some "")) "t" "prompt \x7btext\x7d" []).2 =
      .error (.llmAPIError "Failed to process text: Empty response from Gemini") ∧
    (GeminiService.process_text (fun _ => .error (.valueError "API Error")) "t"
        "prompt \x7btext\x7d" []).2 =
      .error (.llmAPIError "Failed to process text: API Error") := ⟨rfl, rfl⟩

/-- Claim C8 (amended): `process_text` issues exactly one remote call; a falsy
(empty or missing) response text surfaces as
`LLMAPIError("Failed to process text: Empty response from Gemini")` — the
same class as a transport failure, distinguishable only by message — a
transport failure as `LLMAPIError` wrapping `str(e)`, and a non-empty
response is returned as-is. -/
theorem C8_amended_empty_response_wrapped (generate : GenerateContent)
    (text prompt_template : String) (kwargs : List (String × String)) (prompt : String)
    (hfmt : pyStrFormat prompt_template (("text", text) :: kwargs) = .ok prompt) :
    (GeminiService.process_text generate text prompt_template kwargs).1 = [prompt] ∧
    ((generate prompt = .ok none ∨ generate prompt = .ok (some "")) →
      (GeminiService.process_text generate text prompt_template kwargs).2 =
        .error (.llmAPIError "Failed to process text: Empty response from Gemini")) ∧
    (∀ e, generate prompt = .error e →
      (GeminiService.process_text generate text prompt_template kwargs).2 =
        .error (.llmAPIError ("Failed to process text: " ++ pyStrErr e))) ∧
    (∀ s, s ≠ "" → generate prompt = .ok (some s) →
      (GeminiService.process_text generate text prompt_template kwargs).2 = .ok s) := by
  refine ⟨?_, ?_, ?_, ?_⟩
  · simp [GeminiService.process_text, hfmt]
  · rintro (hg | hg) <;> simp [GeminiService.process_text, hfmt, hg, pyStrErr]
  · intro e hg
    simp [GeminiService.process_text, hfmt, hg]
  · intro s hs hg
    simp [GeminiService.process_text, hfmt, hg, hs]

/-- Claim C8 (witness): the amended statement at the test-suite inputs
(`"Process this: \x7btext\x7d"` with text `"test text"`) and an empty remote
response. -/
theorem C8_witness :
    (GeminiService.process_text (fun _ => .ok (some "")) "test text"
        "Process this: \x7btext\x7d" []).1 = ["Process this: test text"] ∧
    (GeminiService.process_text (fun _ => .ok (some "")) "test text"
        "Process this: \x7btext\x7d" []).2 =
      .error (.llmAPIError "Failed to process text: Empty response from Gemini") := by
  have h := C8_amended_empty_response_wrapped (fun _ => .ok (some "")) "test text"
    "Process this: \x7btext\x7d" [] "Process this: test text" rfl
  exact ⟨h.1, h.2.1 (Or.inr rfl)⟩

/-- Claim C9 (counterexample): extraction is supposed to retain the underlying
failure as a cause field, but the wrapped `TextExtractionError` carries only
the interpolated message — its `original_error` field is `None`, so the
underlying `ValueError` is discarded. -/
theorem C9_counterexample :
    PyPDF2Extractor.extract_text (.error (.valueError "bad xref table")) =
      .error (.appError .textExtractionError "Failed to extract text: bad xref table"
        none) := rfl

/-- Claim C9 (amended): extraction wraps an underlying failure into
`TextExtractionError("Failed to extract text: " + str(e))` with
`original_error = None` (the cause is reduced to an interpolated message);
only the generic `handle_exceptions` decorator retains a cause, and it passes
`PDFAudioError` subclasses through unchanged while wrapping any other
exception into the generic `PDFAudioError` with `original_error = e`. -/
theorem C9_amended_wrapping (e : PyErr) (msg m2 : String) (cls : AppErrClass)
    (orig : Option PyErr) (hnapp : isPDFAudioError e = false) :
    PyPDF2Extractor.extract_text (.error e) =
      .error (.appError .textExtractionError ("Failed to extract text: " ++ pyStrErr e)
        none) ∧
    handle_exceptions (α := String) msg (.error (.appError cls m2 orig)) =
      .error (.appError cls m2 orig) ∧
    handle_exceptions (α := String) msg (.error e) =
      .error (.appError .pdfAudioError (msg ++ ": " ++ pyStrErr e) (some e)) := by
  refine ⟨rfl, rfl, ?_⟩
  simp [handle_exceptions, hnapp]

/-- Claim C9 (witness): the amended statement at a concrete underlying
`ValueError` and the `load_pdf` decorator message. -/
theorem C9_witness :
    PyPDF2Extractor.extract_text (.error (.valueError "underlying parse failure")) =
      .error (.appError .textExtractionError
        "Failed to extract text: underlying parse failure" none) ∧
    handle_exceptions (α := String) "Failed to load PDF file"
        (.error (.appError .textExtractionError "x" none)) =
      .error (.appError .textExtractionError "x" none) ∧
    handle_exceptions (α := String) "Failed to load PDF file"
        (.error (.valueError "underlying parse failure")) =
      .error (.appError .pdfAudioError "Failed to load PDF file: underlying parse failure"
        (some (.valueError "underlying parse failure"))) := by
  have h := C9_amended_wrapping (.valueError "underlying parse failure")
    "Failed to load PDF file" "x" .textExtractionError none rfl
  exact ⟨h.1, h.2.1, h.2.2⟩

/-- Claim C10 (confirmed): the two `PromptType` enumerations are distinct
classes, so no member of the prompt_types.py enumeration is ever a key of the
registry dictionary — `get_template` raises the unknown-prompt-type
`ValueError` for every one of them. -/
theorem C10_service_enum_never_registered (pt : PromptTypesPT) :
    PromptLibrary.get_template (.svc pt) =
      .error (.valueError ("Unknown prompt type: " ++ pyStrSvcPT pt)) := by
  cases pt <;> rfl

end TalkToMe
